import Mathlib

/-!
# Verification of `steampy/market.py` (class `SteamMarket`)

A shallow embedding of the order/listing operations of `SteamMarket`
(`src/steampy/market.py`) and proofs about them.  Network effects are
modelled as explicit inputs (the parsed JSON of each response, the outcome
of the confirmation executor) and as an emitted event trace; Python
exceptions become `Except` errors; JSON fields become `Option`-valued
record fields whose truthiness mirrors Python's.
-/

set_option autoImplicit false

namespace Steampy

/-- Rendering of an optional JSON string the way a Python f-string renders
the bound variable: `None` when the field was absent, the raw string
otherwise. -/
def renderOptStr : Option String → String
  | none => "None"
  | some s => s

/-- Rendering of an optional JSON integer inside a Python f-string:
`None` when absent, the decimal representation otherwise. -/
def renderOptInt : Option Int → String
  | none => "None"
  | some n => toString n

/-- Python truthiness of an optional JSON string: an absent field and the
empty string are falsy, every other string is truthy. -/
def truthyStr : Option String → Bool
  | none => false
  | some s => s != ""

/-- Python truthiness of an optional JSON boolean: absent and `False` are
falsy. -/
def truthyBool : Option Bool → Bool
  | none => false
  | some b => b

/-- Python's `sub in s` substring test, via `splitOn`: `sub` occurs in `s`
iff splitting `s` on `sub` yields more than one part.  (Only used with the
fixed, non-empty needle `"pending confirmation"`.) -/
def strContains (s sub : String) : Bool :=
  (s.splitOn sub).length != 1

/-- The exception classes `market.py` raises.  The module imports exactly
`ApiException` and `TooManyRequests` from `steampy.exceptions` and raises
no other class.  `notLoggedIn` is Modelled from the spec: the
`login_required` decorator lives in `steampy.utils`, which is not among the
sources; per the spec it fails a session-requiring call with `NotLoggedIn`
before any network I/O. -/
inductive MarketError where
  | apiException (msg : String)
  | tooManyRequests (msg : String)
  | notLoggedIn
  deriving Repr, DecidableEq

/-- The exception *class* of a raised error, forgetting the message:
used to state which failures are (in)distinguishable by class. -/
inductive ErrClass where
  | apiExceptionClass
  | tooManyRequestsClass
  | notLoggedInClass
  deriving Repr, DecidableEq

def MarketError.errClass : MarketError → ErrClass
  | .apiException _ => .apiExceptionClass
  | .tooManyRequests _ => .tooManyRequestsClass
  | .notLoggedIn => .notLoggedInClass

/-- The class of the error carried by a failed result, `none` on success. -/
def errClassOf {α : Type} : Except MarketError α → Option ErrClass
  | .error e => some e.errClass
  | .ok _ => none

/-! ## Decimal arithmetic (`decimal.Decimal` as used at line 147)

`create_buy_order` computes
`'price_total': str(Decimal(price_single_item) * Decimal(quantity))`.
A finite `Decimal` is an integer coefficient with a base-10 exponent.
`Decimal(str)` parses exactly and a plain decimal string always yields a
non-positive exponent, so parsed inputs are modelled as
`coeff / 10 ^ scale` with `scale ≥ 0` (`Dec`).  Arithmetic, however, runs
under the module's *default context*: a multiplication result is rounded
half-even to 28 significant digits, which can also raise the exponent
above zero — so products are modelled as `CDec`, a coefficient with an
arbitrary `Int` exponent, and the context multiplication is `decMul28`.
`Dec.mul` is the *unrounded* product, kept as the reference value for
exactness statements. -/

/-- An exact decimal number denoting `coeff / 10 ^ scale`. -/
structure Dec where
  coeff : Int
  scale : Nat
  deriving Repr, DecidableEq

/-- The rational value of a decimal. -/
def Dec.toRat (d : Dec) : ℚ := (d.coeff : ℚ) / (10 : ℚ) ^ d.scale

/-- The exact, unrounded product of two decimals: multiply coefficients,
add scales.  This is the reference value for exactness statements; the
multiplication the program actually performs is `decMul28`, which rounds
this product to the context precision. -/
def Dec.mul (a b : Dec) : Dec := ⟨a.coeff * b.coeff, a.scale + b.scale⟩

/-- `Decimal(quantity)` for an integer quantity. -/
def Dec.ofNat (n : Nat) : Dec := ⟨(n : Int), 0⟩

/-- A context-arithmetic decimal denoting `coeff * 10 ^ exponent`; unlike
a parsed `Dec`, the exponent may be positive after rounding. -/
structure CDec where
  coeff : Int
  exponent : Int
  deriving Repr, DecidableEq

/-- The rational value of a context-arithmetic decimal. -/
def CDec.toRat (x : CDec) : ℚ := (x.coeff : ℚ) * (10 : ℚ) ^ x.exponent

/-- A parsed decimal viewed as a context decimal (same value). -/
def Dec.toCDec (d : Dec) : CDec := ⟨d.coeff, -(d.scale : Int)⟩

/-- The number of decimal digits of a coefficient (1 for zero), i.e. its
number of significant digits. -/
def numDigits (n : Nat) : Nat := (toString n).length

/-- The precision of `decimal`'s default context: 28 significant digits. -/
def ctxPrec : Nat := 28

/-- Round `c` to a multiple of `10 ^ drop`, scaled down, with the default
context's ROUND_HALF_EVEN tie-breaking. -/
def roundHalfEven (c drop : Nat) : Nat :=
  let p := 10 ^ drop
  let q := c / p
  let r := c % p
  if 2 * r > p then q + 1
  else if 2 * r < p then q
  else if q % 2 = 0 then q else q + 1

/-- `Decimal` multiplication under the default context: the exact product,
rounded half-even to 28 significant digits when its coefficient is longer;
when rounding up overflows to a 29-digit coefficient (all-nines case) the
coefficient collapses to `10 ^ 27` and the exponent rises once more. -/
def decMul28 (a b : Dec) : CDec :=
  let m := a.coeff * b.coeff
  let c := m.natAbs
  let neg := m < 0
  let e : Int := -((a.scale : Int) + (b.scale : Int))
  let nd := numDigits c
  if nd ≤ ctxPrec then
    ⟨if neg then -(c : Int) else (c : Int), e⟩
  else
    let drop := nd - ctxPrec
    let q := roundHalfEven c drop
    if numDigits q ≤ ctxPrec then
      ⟨if neg then -(q : Int) else (q : Int), e + drop⟩
    else
      ⟨if neg then -((q / 10 : Nat) : Int) else ((q / 10 : Nat) : Int), e + drop + 1⟩

def isDigitChar (c : Char) : Bool := '0' ≤ c && c ≤ '9'

def digitVal (c : Char) : Nat := c.toNat - '0'.toNat

/-- Read a digit string as a natural number; `none` on a non-digit.
An empty list yields `some acc` (callers reject the all-empty case). -/
def parseDigitsAux : List Char → Nat → Option Nat
  | [], acc => some acc
  | c :: cs, acc =>
      if isDigitChar c then parseDigitsAux cs (acc * 10 + digitVal c) else none

/-- `Decimal(s)` for a plain decimal string: optional sign, integer part,
optional point and fractional part.  `none` models the
`decimal.InvalidOperation` the constructor raises on malformed input. -/
def parseDec (s : String) : Option Dec :=
  let cs0 := s.toList
  let signed : Bool × List Char :=
    match cs0 with
    | '-' :: rest => (true, rest)
    | '+' :: rest => (false, rest)
    | _ => (false, cs0)
  let neg := signed.1
  match (signed.2).splitOn '.' with
  | [ip] =>
      if ip.isEmpty then none
      else (parseDigitsAux ip 0).map fun n =>
        ⟨if neg then -(n : Int) else (n : Int), 0⟩
  | [ip, fp] =>
      if ip.isEmpty && fp.isEmpty then none
      else
        match parseDigitsAux ip 0, parseDigitsAux fp 0 with
        | some i, some f =>
            let c : Nat := i * 10 ^ fp.length + f
            some ⟨if neg then -(c : Int) else (c : Int), fp.length⟩
        | _, _ => none
  | _ => none

/-- `str` on a finite `Decimal`: the standard to-scientific-string
conversion (fixed-point when the exponent is ≤ 0 and the adjusted exponent
is ≥ -6, exponential notation otherwise). -/
def sciString (x : CDec) : String :=
  let neg := x.coeff < 0
  let digits := toString x.coeff.natAbs
  let len : Int := (digits.length : Int)
  let e : Int := x.exponent
  let adjusted : Int := e + len - 1
  let body :=
    if e ≤ 0 ∧ -6 ≤ adjusted then
      if e = 0 then digits
      else
        let k : Int := len + e
        if 0 < k then
          String.mk (digits.toList.take k.toNat) ++ "." ++
            String.mk (digits.toList.drop k.toNat)
        else
          "0." ++ String.mk (List.replicate (-k).toNat '0') ++ digits
    else
      let mant :=
        if digits.length = 1 then digits
        else String.mk (digits.toList.take 1) ++ "." ++
          String.mk (digits.toList.drop 1)
      mant ++ "E" ++ (if adjusted < 0 then toString adjusted else "+" ++ toString adjusted)
  (if neg then "-" else "") ++ body

theorem Dec.toRat_mul (a b : Dec) : (a.mul b).toRat = a.toRat * b.toRat := by
  simp only [Dec.mul, Dec.toRat, pow_add]
  push_cast
  rw [div_mul_div_comm]

theorem Dec.toRat_ofNat (n : Nat) : (Dec.ofNat n).toRat = (n : ℚ) := by
  simp [Dec.ofNat, Dec.toRat]

/-! ## Response shapes -/

/-- The `wallet_info` block of a buy-listing response.  (A present but
empty dict is falsy in Python; since an empty dict also has no `success`
and no `message` entry, representing presence-as-truthy is
outcome-equivalent at every use site: lines 200 and 220-221.) -/
structure WalletInfo where
  success : Option Int
  message : Option String
  deriving Repr, DecidableEq

/-- The `confirmation` block of a buy-listing response. -/
structure ConfBlock where
  confirmation_id : Option String
  deriving Repr, DecidableEq

/-- The parsed JSON of a POST to `/market/buylisting/<id>`. -/
structure BuyResponse where
  success : Option Int
  wallet_info : Option WalletInfo
  confirmation : Option ConfBlock
  message : Option String
  deriving Repr, DecidableEq

/-- The parsed JSON of a POST to `/market/sellitem/`. -/
structure SellResponse where
  success : Option Bool
  needs_mobile_confirmation : Option Bool
  message : Option String
  deriving Repr, DecidableEq

/-- The parsed JSON of the create-buy-order and cancel-buy-order
endpoints: only the `success` integer is inspected. -/
structure OrderResponse where
  success : Option Int
  deriving Repr, DecidableEq

/-! ## Payloads, URLs and the event trace -/

def COMMUNITY_URL : String := "https://steamcommunity.com"

/-- The form payload of `buy_item` (lines 182-192). -/
structure BuyPayload where
  sessionid : String
  currency : Nat
  subtotal : Int
  fee : Int
  total : Int
  quantity : String
  billing_state : String
  save_my_address : String
  confirmation : String
  deriving Repr, DecidableEq

/-- The form payload of `create_sell_order` (lines 116-123). -/
structure SellPayload where
  assetid : String
  sessionid : String
  contextid : String
  appid : String
  amount : Nat
  price : String
  deriving Repr, DecidableEq

/-- The form payload of `create_buy_order` (lines 142-149). -/
structure BuyOrderPayload where
  sessionid : String
  currency : Nat
  appid : String
  market_hash_name : String
  price_total : String
  quantity : Nat
  deriving Repr, DecidableEq

/-- Observable effects, in program order: HTTP requests issued, calls into
the confirmation executor, and the `time.sleep` grace period. -/
inductive Event where
  | postBuyListing (url : String) (payload : BuyPayload) (referer : String)
  | fetchConfirmations
  | acceptConfirmation (idx : Nat)
  | sleepGracePeriod (seconds : Nat)
  | postSellItem (url : String) (payload : SellPayload) (referer : String)
  | confirmSellListing (assetId : String)
  | postCreateBuyOrder (url : String) (payload : BuyOrderPayload) (referer : String)
  | postRemoveListing (url sessionid : String) (referer : String)
  | postCancelBuyOrder (url sessionid buy_orderid : String) (referer : String)
  | getRequest (url : String)
  deriving Repr, DecidableEq

/-- A Python exception raised inside `buy_item`'s `try` block (by the
confirmation executor, `time.sleep` or the resubmission request). -/
inductive PyExc where
  | keyError
  | typeError
  | otherExc (msg : String)
  deriving Repr, DecidableEq

/-- The `except` clauses of `buy_item` (lines 214-217): `KeyError` and
`TypeError` yield a fixed `ApiException`; any other exception yields an
`ApiException` whose message embeds it. -/
def confirmStepError : PyExc → MarketError
  | .keyError =>
      .apiException "Steam requested confirmation, but returned invalid data (confirmation_id)."
  | .typeError =>
      .apiException "Steam requested confirmation, but returned invalid data (confirmation_id)."
  | .otherExc s =>
      .apiException ("An error occurred during the second confirmation step: " ++ s)

/-! ## `buy_item` (lines 172-222) -/

/-- Line 200: `response.get('wallet_info') and
response.get('wallet_info').get('success') == 1`. -/
def walletSuccess (r : BuyResponse) : Bool :=
  match r.wallet_info with
  | some w => w.success == some 1
  | none => false

/-- Line 203: `response.get('confirmation', {}).get('confirmation_id')`. -/
def confirmationIdOf (r : BuyResponse) : Option String :=
  match r.confirmation with
  | some c => c.confirmation_id
  | none => none

/-- Line 203: `response.get('success') == 22` and a truthy confirmation id. -/
def needsConfirmation (r : BuyResponse) : Bool :=
  r.success == some 22 && truthyStr (confirmationIdOf r)

/-- Lines 219-221: `message = response.get('message')`; when that value is
falsy (absent or empty) and `wallet_info` is truthy, fall back to
`wallet_info.get('message')`. -/
def failMessage (r : BuyResponse) : Option String :=
  match r.wallet_info with
  | some w => if truthyStr r.message then r.message else w.message
  | none => r.message

/-- Modelled from the spec (for comparison with `failMessage`): the error
message "is taken from the response's top-level message field, falling
back to the wallet_info message field when the top-level one is absent". -/
def failMessageSpec (r : BuyResponse) : Option String :=
  match r.message with
  | some m => some m
  | none =>
      match r.wallet_info with
      | some w => w.message
      | none => none

/-- The initial `data` dict of `buy_item` (lines 182-192): `subtotal` is
`price - fee`, `confirmation` starts at `'0'`. -/
def initialBuyPayload (sessionid : String) (currencyValue : Nat) (price fee : Int) :
    BuyPayload :=
  { sessionid := sessionid, currency := currencyValue, subtotal := price - fee,
    fee := fee, total := price, quantity := "1", billing_state := "",
    save_my_address := "0", confirmation := "0" }

def buyListingUrl (market_id : String) : String :=
  COMMUNITY_URL ++ "/market/buylisting/" ++ market_id

/-- The `Referer` header of `buy_item` and `create_buy_order` (lines
193-195 and 150-152); `quote` stands for `urllib.parse.quote`. -/
def listingsReferer (quote : String → String) (app_id market_name : String) : String :=
  COMMUNITY_URL ++ "/market/listings/" ++ app_id ++ "/" ++ quote market_name

/-- `buy_item`, shallowly embedded.  `wasLogin` is the session flag the
`login_required` decorator checks; `firstResp` is the parsed JSON of the
first POST; `confirmFetch` is the outcome of `_confirm_buy_listing`
(the indices of the pending confirmations it fetches and accepts, or the
exception it raised); `resubmit` is the outcome of the second POST.
Returns the emitted event trace and the result. -/
def buy_item (wasLogin : Bool) (quote : String → String) (sessionid : String)
    (market_name market_id : String) (price fee : Int) (app_id : String)
    (currencyValue : Nat) (firstResp : BuyResponse)
    (confirmFetch : Except PyExc (List Nat)) (resubmit : Except PyExc BuyResponse) :
    List Event × Except MarketError BuyResponse :=
  if wasLogin then
    let data := initialBuyPayload sessionid currencyValue price fee
    let referer := listingsReferer quote app_id market_name
    let url := buyListingUrl market_id
    let firstPost := Event.postBuyListing url data referer
    if walletSuccess firstResp then
      ([firstPost], .ok firstResp)
    else if needsConfirmation firstResp then
      let confirmation_id := (confirmationIdOf firstResp).getD ""
      let data2 := { data with confirmation := confirmation_id }
      match confirmFetch with
      | .error e => ([firstPost, .fetchConfirmations], .error (confirmStepError e))
      | .ok confs =>
        match resubmit with
        | .error e =>
            ([firstPost, .fetchConfirmations] ++ confs.map Event.acceptConfirmation
              ++ [.sleepGracePeriod 1, .postBuyListing url data2 referer],
             .error (confirmStepError e))
        | .ok final_response =>
            ([firstPost, .fetchConfirmations] ++ confs.map Event.acceptConfirmation
              ++ [.sleepGracePeriod 1, .postBuyListing url data2 referer],
             .ok final_response)
    else
      ([firstPost],
       .error (.apiException
         ("Failed to buy item. Steam message: " ++ renderOptStr (failMessage firstResp))))
  else ([], .error .notLoggedIn)

/-! ## `create_sell_order` (lines 114-131) -/

/-- Lines 127-128: `has_pending_confirmation = 'pending confirmation' in
response.get('message', '')`, and the delegation test
`response.get('needs_mobile_confirmation') or (not response.get('success')
and has_pending_confirmation)`. -/
def sellNeedsConfirm (resp : SellResponse) : Bool :=
  truthyBool resp.needs_mobile_confirmation
    || (!truthyBool resp.success && strContains (resp.message.getD "") "pending confirmation")

/-- `create_sell_order`: submit the sell request; when `sellNeedsConfirm`
holds of the response, delegate to `_confirm_sell_listing(assetid)` (a
targeted confirm of this asset) and return its result; otherwise return
the submit response unchanged.  `confirmSellResult` models
`ConfirmationExecutor.confirm_sell_listing`. -/
def create_sell_order (wasLogin : Bool) (assetid sessionid context_id app_id : String)
    (money_to_receive : String) (steamid : String) (resp : SellResponse)
    (confirmSellResult : String → SellResponse) :
    List Event × Except MarketError SellResponse :=
  if wasLogin then
    let data : SellPayload :=
      { assetid := assetid, sessionid := sessionid, contextid := context_id,
        appid := app_id, amount := 1, price := money_to_receive }
    let referer := COMMUNITY_URL ++ "/profiles/" ++ steamid ++ "/inventory"
    let post := Event.postSellItem (COMMUNITY_URL ++ "/market/sellitem/") data referer
    if sellNeedsConfirm resp then
      ([post, .confirmSellListing assetid], .ok (confirmSellResult assetid))
    else
      ([post], .ok resp)
  else ([], .error .notLoggedIn)

/-! ## `create_buy_order` (lines 133-161) -/

/-- The `data` dict of `create_buy_order`: `price_total` is
`str(Decimal(price_single_item) * Decimal(quantity))`, the multiplication
running under the default context (`decMul28`: half-even rounding to 28
significant digits). -/
def buyOrderPayload (sessionid : String) (currencyValue : Nat) (app_id market_name : String)
    (d : Dec) (quantity : Nat) : BuyOrderPayload :=
  { sessionid := sessionid, currency := currencyValue, appid := app_id,
    market_hash_name := market_name,
    price_total := sciString (decMul28 d (Dec.ofNat quantity)), quantity := quantity }

/-- `create_buy_order`: build the payload (with exact-decimal total),
POST, return the response iff its `success` is `1`, otherwise raise
`ApiException` embedding the raw indicator.  The outer `none` models the
`decimal.InvalidOperation` escaping when `price_single_item` is not a
decimal string. -/
def create_buy_order (wasLogin : Bool) (quote : String → String)
    (sessionid market_name price_single_item : String) (quantity : Nat)
    (app_id : String) (currencyValue : Nat) (resp : OrderResponse) :
    Option (List Event × Except MarketError OrderResponse) :=
  if wasLogin then
    match parseDec price_single_item with
    | none => none
    | some d =>
      let data := buyOrderPayload sessionid currencyValue app_id market_name d quantity
      let referer := listingsReferer quote app_id market_name
      let events := [Event.postCreateBuyOrder (COMMUNITY_URL ++ "/market/createbuyorder/") data referer]
      if resp.success == some 1 then some (events, .ok resp)
      else
        some (events,
          .error (.apiException
            ("There was a problem creating the order. Are you using the right currency? success: "
              ++ renderOptInt resp.success)))
  else some ([], .error .notLoggedIn)

/-! ## `cancel_sell_order` (lines 225-233) and `cancel_buy_order` (lines 235-244) -/

/-- `cancel_sell_order`: POST the removal; raise `ApiException` on a
non-OK HTTP status, return nothing otherwise. -/
def cancel_sell_order (wasLogin : Bool) (sessionid sell_listing_id : String)
    (status : Nat) : List Event × Except MarketError Unit :=
  if wasLogin then
    let url := COMMUNITY_URL ++ "/market/removelisting/" ++ sell_listing_id
    let events := [Event.postRemoveListing url sessionid (COMMUNITY_URL ++ "/market/")]
    if status != 200 then
      (events,
       .error (.apiException
         ("There was a problem removing the listing. HTTP code: " ++ toString status)))
    else (events, .ok ())
  else ([], .error .notLoggedIn)

/-- `cancel_buy_order`: POST the cancellation; return the response iff its
`success` is `1`, otherwise raise `ApiException` embedding the raw
indicator. -/
def cancel_buy_order (wasLogin : Bool) (sessionid buy_order_id : String)
    (resp : OrderResponse) : List Event × Except MarketError OrderResponse :=
  if wasLogin then
    let events := [Event.postCancelBuyOrder (COMMUNITY_URL ++ "/market/cancelbuyorder/")
      sessionid buy_order_id (COMMUNITY_URL ++ "/market")]
    if resp.success == some 1 then (events, .ok resp)
    else
      (events,
       .error (.apiException
         ("There was a problem canceling the order. success: " ++ renderOptInt resp.success)))
  else ([], .error .notLoggedIn)

/-! ## `get_my_market_listings` (lines 62-112): pagination plan and merge -/

/-- A listing collection: the dicts `sell_listings` (keyed by listing id)
and `buy_listings`, as association lists.  The values (full merged listing
records) are opaque to the merge, so they are modelled as strings. -/
structure ListingCollection where
  sell_listings : List (String × String)
  buy_listings : List (String × String)
  deriving Repr, DecidableEq

/-- Key lookup in an association-list dict. -/
def lookupKey (k : String) : List (String × String) → Option String
  | [] => none
  | (k1, v) :: t => if k1 == k then some v else lookupKey k t

/-- Python's dict overlay `{**a, **b}`: every key of `a` or `b` is present,
and `b`'s value wins on a shared key. -/
def dictMerge (a b : List (String × String)) : List (String × String) :=
  a.filter (fun p => (lookupKey p.1 b).isNone) ++ b

/-- The merge statements at lines 95 and 110:
`listings['sell_listings'] = {**listings['sell_listings'],
**listings_2['sell_listings']}` — only the sell side is touched;
`buy_listings` keeps the first collection's entries. -/
def mergeListings (listings listings_2 : ListingCollection) : ListingCollection :=
  { sell_listings := dictMerge listings.sell_listings listings_2.sell_listings,
    buy_listings := listings.buy_listings }

/-- One fetch of the pagination plan: the single bulk request
`GET /market/mylistings/render/?query=&start=S&count=C` (line 84, with
`count = -1`, i.e. "all"), or a paginated request
`GET /market/mylistings/?query=&start=S&count=C` (line 98, with
`count = 100`). -/
inductive FetchReq where
  | bulk (start : Nat) (count : Int)
  | page (start : Nat) (count : Nat)
  deriving Repr, DecidableEq

/-- Python `range(start, stop, step)` for a positive step, by fuel
(`stop - start` bounds the iteration count when `step ≥ 1`). -/
def rangeStepAux : Nat → Nat → Nat → Nat → List Nat
  | 0, _, _, _ => []
  | fuel + 1, start, stop, step =>
      if start < stop then start :: rangeStepAux fuel (start + step) stop step else []

/-- Python `range(start, stop, step)` for `step ≥ 1`. -/
def rangeStep (start stop step : Nat) : List Nat :=
  rangeStepAux (stop - start) start stop step

/-- The fetch plan of lines 83-110: one bulk request at offset `n_showing`
when `n_showing < n_total < 1000`; otherwise one page request of size 100
at offset `n_showing + i` for each `i in range(0, n_total, 100)`. -/
def paginationPlan (n_showing n_total : Nat) : List FetchReq :=
  if n_showing < n_total ∧ n_total < 1000 then
    [.bulk n_showing (-1)]
  else
    (rangeStep 0 n_total 100).map fun i => .page (n_showing + i) 100

/-- Modelled from the spec (for comparison with `paginationPlan`): the
paginated branch as the claim words it — requests "starting at offset
`n_showing` and advancing by 100 until the offset reaches `n_total`". -/
def paginationPlanSpec (n_showing n_total : Nat) : List FetchReq :=
  if n_showing < n_total ∧ n_total < 1000 then
    [.bulk n_showing (-1)]
  else
    (rangeStep n_showing n_total 100).map fun o => .page o 100

/-- The aggregation of lines 75-112: when the landing page carries the
showing/total markers, fetch every request of the plan and fold each
result into the inline collection in order; otherwise the inline page is
the complete result.  `fetch` maps each request to its merged page
collection (every fetch returning HTTP 200). -/
def get_my_market_listings (hasMarkers : Bool) (n_showing n_total : Nat)
    (inline : ListingCollection) (fetch : FetchReq → ListingCollection) :
    ListingCollection :=
  if hasMarkers then
    ((paginationPlan n_showing n_total).map fetch).foldl mergeListings inline
  else inline

/-! ## Helper lemmas -/

theorem lookupKey_append (l1 l2 : List (String × String)) (k : String) :
    lookupKey k (l1 ++ l2) =
      match lookupKey k l1 with
      | some v => some v
      | none => lookupKey k l2 := by
  induction l1 with
  | nil => simp [lookupKey]
  | cons p t ih =>
    obtain ⟨k1, v1⟩ := p
    by_cases h : k1 == k
    · simp [lookupKey, h]
    · simp [lookupKey, h, ih]

theorem lookupKey_filter (a b : List (String × String)) (k : String) :
    lookupKey k (a.filter fun p => (lookupKey p.1 b).isNone) =
      if (lookupKey k b).isNone then lookupKey k a else none := by
  induction a with
  | nil => simp [lookupKey]
  | cons p t ih =>
    obtain ⟨k1, v1⟩ := p
    rw [List.filter_cons]
    by_cases hmem : (lookupKey k1 b).isNone
    · rw [if_pos (by simpa using hmem)]
      by_cases hk : k1 == k
      · have hkey : k1 = k := eq_of_beq hk
        subst hkey
        simp [lookupKey, hmem]
      · simp [lookupKey, hk, ih]
    · rw [if_neg (by simpa using hmem)]
      by_cases hk : k1 == k
      · have hkey : k1 = k := eq_of_beq hk
        subst hkey
        simp [lookupKey, ih, hmem]
      · simp [lookupKey, hk, ih]

/-- The overlay `{**a, **b}` behaves as a right-biased union, key by key. -/
theorem dictMerge_lookup (a b : List (String × String)) (k : String) :
    lookupKey k (dictMerge a b) =
      match lookupKey k b with
      | some v => some v
      | none => lookupKey k a := by
  rw [dictMerge, lookupKey_append, lookupKey_filter]
  cases h : lookupKey k b <;> cases h2 : lookupKey k a <;> simp [h, h2]

/-- `rangeStepAux` with step 100 and enough fuel is an arithmetic
progression of length `⌈(stop - start) / 100⌉`. -/
theorem rangeStepAux_hundred (fuel : Nat) :
    ∀ start stop : Nat, stop - start ≤ fuel →
      rangeStepAux fuel start stop 100 =
        List.range' start ((stop - start + 99) / 100) 100 := by
  induction fuel with
  | zero =>
    intro start stop h
    have h0 : stop - start = 0 := Nat.le_zero.mp h
    simp [rangeStepAux, h0]
  | succ n ih =>
    intro start stop h
    by_cases hlt : start < stop
    · rw [rangeStepAux, if_pos hlt, ih (start + 100) stop (by omega)]
      have hcount : (stop - start + 99) / 100 = (stop - (start + 100) + 99) / 100 + 1 := by
        omega
      rw [hcount, List.range'_succ]
    · rw [rangeStepAux, if_neg hlt]
      have h0 : stop - start = 0 := by omega
      simp [h0]

/-- Python `range(0, stop, 100)` is the progression `0, 100, …` of length
`⌈stop / 100⌉`. -/
theorem rangeStep_hundred (stop : Nat) :
    rangeStep 0 stop 100 = List.range' 0 ((stop + 99) / 100) 100 := by
  have := rangeStepAux_hundred (stop - 0) 0 stop (Nat.le_refl _)
  simpa [rangeStep] using this

theorem Dec.toCDec_toRat (d : Dec) : d.toCDec.toRat = d.toRat := by
  rw [Dec.toCDec, CDec.toRat, Dec.toRat, zpow_neg, zpow_natCast, div_eq_mul_inv]

/-- When the exact product's coefficient fits in the context's 28
significant digits, the context multiplication does not round: it is the
exact product. -/
theorem decMul28_eq_exact (a b : Dec)
    (h : numDigits (a.coeff * b.coeff).natAbs ≤ ctxPrec) :
    decMul28 a b = (Dec.mul a b).toCDec := by
  simp only [decMul28, Dec.mul, Dec.toCDec]
  rw [if_pos h]
  refine congrArg₂ CDec.mk ?_ ?_
  · split <;> omega
  · push_cast
    ring

/-! ## Claim C2 — pagination plan -/

/-- **C2** (amended).  With the showing/total markers present: when
`n_showing < n_total < 1000` the planner issues exactly one bulk request
(`count = -1`, i.e. all) at offset `n_showing`; otherwise it issues
`⌈n_total / 100⌉` page requests of fixed size 100 at offsets
`n_showing + 100·k` — the loop counter runs from 0 towards `n_total` in
steps of 100 regardless of `n_showing`, so the offsets end at
`n_showing + 100·(⌈n_total / 100⌉ - 1)`, not when they reach `n_total` —
and each fetched page is folded into the collection in order. -/
theorem c2_paginationPlan_spec (n_showing n_total : Nat)
    (inline : ListingCollection) (fetch : FetchReq → ListingCollection) :
    (n_showing < n_total ∧ n_total < 1000 →
      paginationPlan n_showing n_total = [FetchReq.bulk n_showing (-1)]) ∧
    (¬(n_showing < n_total ∧ n_total < 1000) →
      paginationPlan n_showing n_total =
        (List.range' n_showing ((n_total + 99) / 100) 100).map fun o =>
          FetchReq.page o 100) ∧
    get_my_market_listings true n_showing n_total inline fetch =
      ((paginationPlan n_showing n_total).map fetch).foldl mergeListings inline := by
  refine ⟨fun h => ?_, fun h => ?_, rfl⟩
  · rw [paginationPlan, if_pos h]
  · rw [paginationPlan, if_neg h, rangeStep_hundred]
    have hm : List.map (fun x => n_showing + x)
        (List.range' 0 ((n_total + 99) / 100) 100) =
        List.range' n_showing ((n_total + 99) / 100) 100 := by
      simp
    rw [← hm, List.map_map]
    rfl

/-- Witness for `c2_paginationPlan_spec`: `n_showing = 50, n_total = 200`
gives one bulk request at offset 50; `n_showing = 0, n_total = 1500` gives
the fifteen page requests at offsets 0, 100, …, 1400. -/
theorem c2_paginationPlan_spec_check :
    paginationPlan 50 200 = [FetchReq.bulk 50 (-1)] ∧
    paginationPlan 0 1500 =
      (List.range' 0 15 100).map fun o => FetchReq.page o 100 :=
  ⟨(c2_paginationPlan_spec 50 200 ⟨[], []⟩ fun _ => ⟨[], []⟩).1 (by omega),
   (c2_paginationPlan_spec 0 1500 ⟨[], []⟩ fun _ => ⟨[], []⟩).2.1 (by omega)⟩

/-- **C2** counterexample.  At `n_showing = 200, n_total = 200` (markers
present, paginated branch entered) the code issues two requests at offsets
200 and 300, while requests "starting at offset `n_showing` and advancing
by 100 until the offset reaches `n_total`" would be none at all: the loop
bound is the counter `i`, not the offset. -/
theorem c2_paginationPlan_cex :
    paginationPlan 200 200 = [FetchReq.page 200 100, FetchReq.page 300 100] ∧
    paginationPlanSpec 200 200 = [] ∧
    paginationPlan 200 200 ≠ paginationPlanSpec 200 200 := by
  decide

/-! ## Claim C7 — merging two listing collections -/

/-- **C7** (amended).  Merging two listing collections overlays the second
collection's sell listings onto the first's by key — for a shared key the
later collection's value wins and keys unique to either side are
preserved — but the second collection's buy listings are *discarded*: the
result's buy listings are exactly the first collection's, unchanged. -/
theorem c7_mergeListings_spec (a b : ListingCollection) (k : String) :
    lookupKey k (mergeListings a b).sell_listings =
      (match lookupKey k b.sell_listings with
        | some v => some v
        | none => lookupKey k a.sell_listings) ∧
    (mergeListings a b).buy_listings = a.buy_listings :=
  ⟨dictMerge_lookup a.sell_listings b.sell_listings k, rfl⟩

/-! ## Claim C1 — buy_item confirmation flow -/

/-- **C1**.  When the first buy-listing response has top-level
`success == 22` with a present (truthy) confirmation id, and the wallet
shortcut does not apply: the accept path — fetching all outstanding
confirmations and accepting each — runs before the resubmission request;
the resubmission is sent to the same endpoint with the original payload
now carrying the confirmation id, after the fixed 1-second grace period,
and its response is returned verbatim as the terminal result with no
further escalation. -/
theorem c1_buyItem_confirm_flow (quote : String → String)
    (sessionid market_name market_id : String) (price fee : Int)
    (app_id : String) (cv : Nat) (r : BuyResponse) (confs : List Nat)
    (r2 : BuyResponse) (h1 : walletSuccess r = false)
    (h2 : needsConfirmation r = true) :
    buy_item true quote sessionid market_name market_id price fee app_id cv r
        (.ok confs) (.ok r2) =
      ([Event.postBuyListing (buyListingUrl market_id)
          (initialBuyPayload sessionid cv price fee)
          (listingsReferer quote app_id market_name),
        Event.fetchConfirmations]
        ++ confs.map Event.acceptConfirmation
        ++ [Event.sleepGracePeriod 1,
            Event.postBuyListing (buyListingUrl market_id)
              { initialBuyPayload sessionid cv price fee with
                  confirmation := (confirmationIdOf r).getD "" }
              (listingsReferer quote app_id market_name)],
       Except.ok r2) := by
  simp [buy_item, h1, h2]

/-- Witness for `c1_buyItem_confirm_flow` at a concrete response with
`success = 22`, confirmation id `"cid123"`, two pending confirmations and
a concrete resubmission response. -/
theorem c1_buyItem_confirm_flow_check :
    walletSuccess ⟨some 22, none, some ⟨some "cid123"⟩, none⟩ = false ∧
    needsConfirmation ⟨some 22, none, some ⟨some "cid123"⟩, none⟩ = true ∧
    buy_item true (fun s => s) "sid" "item" "42" 100 10 "570" 1
        ⟨some 22, none, some ⟨some "cid123"⟩, none⟩ (.ok [5, 7])
        (.ok ⟨some 1, none, none, some "done"⟩) =
      ([Event.postBuyListing "https://steamcommunity.com/market/buylisting/42"
          ⟨"sid", 1, 90, 10, 100, "1", "", "0", "0"⟩
          "https://steamcommunity.com/market/listings/570/item",
        Event.fetchConfirmations, Event.acceptConfirmation 5,
        Event.acceptConfirmation 7, Event.sleepGracePeriod 1,
        Event.postBuyListing "https://steamcommunity.com/market/buylisting/42"
          ⟨"sid", 1, 90, 10, 100, "1", "", "0", "cid123"⟩
          "https://steamcommunity.com/market/listings/570/item"],
       Except.ok ⟨some 1, none, none, some "done"⟩) :=
  ⟨rfl, rfl,
    c1_buyItem_confirm_flow (fun s => s) "sid" "item" "42" 100 10 "570" 1
      ⟨some 22, none, some ⟨some "cid123"⟩, none⟩ [5, 7]
      ⟨some 1, none, none, some "done"⟩ rfl rfl⟩

/-! ## Claim C10 — resubmission frame -/

/-- **C10**.  In the confirmation path the resubmitted request reuses the
same endpoint URL and the same Referer header as the original submission,
and its form payload equals the original payload in every field except
`confirmation`, which changes from `"0"` to the confirmation id of the
first response. -/
theorem c10_buyItem_resubmit_frame (quote : String → String)
    (sessionid market_name market_id : String) (price fee : Int)
    (app_id : String) (cv : Nat) (r : BuyResponse) (confs : List Nat)
    (r2 : BuyResponse) (h1 : walletSuccess r = false)
    (h2 : needsConfirmation r = true) :
    (buy_item true quote sessionid market_name market_id price fee app_id cv r
        (.ok confs) (.ok r2)).1.head? =
      some (Event.postBuyListing (buyListingUrl market_id)
        (initialBuyPayload sessionid cv price fee)
        (listingsReferer quote app_id market_name)) ∧
    (buy_item true quote sessionid market_name market_id price fee app_id cv r
        (.ok confs) (.ok r2)).1.getLast? =
      some (Event.postBuyListing (buyListingUrl market_id)
        { initialBuyPayload sessionid cv price fee with
            confirmation := (confirmationIdOf r).getD "" }
        (listingsReferer quote app_id market_name)) ∧
    ({ initialBuyPayload sessionid cv price fee with
        confirmation := (confirmationIdOf r).getD "" }.sessionid,
      { initialBuyPayload sessionid cv price fee with
        confirmation := (confirmationIdOf r).getD "" }.currency,
      { initialBuyPayload sessionid cv price fee with
        confirmation := (confirmationIdOf r).getD "" }.subtotal,
      { initialBuyPayload sessionid cv price fee with
        confirmation := (confirmationIdOf r).getD "" }.fee,
      { initialBuyPayload sessionid cv price fee with
        confirmation := (confirmationIdOf r).getD "" }.total,
      { initialBuyPayload sessionid cv price fee with
        confirmation := (confirmationIdOf r).getD "" }.quantity,
      { initialBuyPayload sessionid cv price fee with
        confirmation := (confirmationIdOf r).getD "" }.billing_state,
      { initialBuyPayload sessionid cv price fee with
        confirmation := (confirmationIdOf r).getD "" }.save_my_address) =
      ((initialBuyPayload sessionid cv price fee).sessionid,
       (initialBuyPayload sessionid cv price fee).currency,
       (initialBuyPayload sessionid cv price fee).subtotal,
       (initialBuyPayload sessionid cv price fee).fee,
       (initialBuyPayload sessionid cv price fee).total,
       (initialBuyPayload sessionid cv price fee).quantity,
       (initialBuyPayload sessionid cv price fee).billing_state,
       (initialBuyPayload sessionid cv price fee).save_my_address) ∧
    (initialBuyPayload sessionid cv price fee).confirmation = "0" ∧
    ({ initialBuyPayload sessionid cv price fee with
        confirmation := (confirmationIdOf r).getD "" }).confirmation =
      (confirmationIdOf r).getD "" := by
  refine ⟨?_, ?_, rfl, rfl, rfl⟩
  · rw [c1_buyItem_confirm_flow quote sessionid market_name market_id price fee
      app_id cv r confs r2 h1 h2]
    rfl
  · rw [c1_buyItem_confirm_flow quote sessionid market_name market_id price fee
      app_id cv r confs r2 h1 h2]
    rw [List.getLast?_append]
    rfl

/-- Witness for `c10_buyItem_resubmit_frame`: the first and last events of
the concrete confirmation-path trace are POSTs to the same URL with the
same Referer, differing only in the `confirmation` payload field. -/
theorem c10_buyItem_resubmit_frame_check :
    (buy_item true (fun s => s) "sid" "item" "42" 100 10 "570" 1
        ⟨some 22, none, some ⟨some "cid123"⟩, none⟩ (.ok [5, 7])
        (.ok ⟨some 1, none, none, some "done"⟩)).1.head? =
      some (Event.postBuyListing "https://steamcommunity.com/market/buylisting/42"
        ⟨"sid", 1, 90, 10, 100, "1", "", "0", "0"⟩
        "https://steamcommunity.com/market/listings/570/item") ∧
    (buy_item true (fun s => s) "sid" "item" "42" 100 10 "570" 1
        ⟨some 22, none, some ⟨some "cid123"⟩, none⟩ (.ok [5, 7])
        (.ok ⟨some 1, none, none, some "done"⟩)).1.getLast? =
      some (Event.postBuyListing "https://steamcommunity.com/market/buylisting/42"
        ⟨"sid", 1, 90, 10, 100, "1", "", "0", "cid123"⟩
        "https://steamcommunity.com/market/listings/570/item") := by
  have h := c10_buyItem_resubmit_frame (fun s => s) "sid" "item" "42" 100 10 "570" 1
    ⟨some 22, none, some ⟨some "cid123"⟩, none⟩ [5, 7]
    ⟨some 1, none, none, some "done"⟩ rfl rfl
  exact ⟨h.1, h.2.1⟩

/-! ## Claim C4 — confirmation-step error classification -/

/-- **C4** (amended).  Every failure inside `buy_item`'s confirmation step
is reported as `ApiException` — there is no separate `ConfirmationError`
class: a `KeyError`/`TypeError` (structurally invalid confirmation data)
yields a fixed invalid-data message, and any other exception yields a
message embedding the cause, so the two causes are distinguishable only by
message text, never by exception class. -/
theorem c4_confirmStep_error_class (quote : String → String)
    (sessionid market_name market_id : String) (price fee : Int)
    (app_id : String) (cv : Nat) (r : BuyResponse) (e : PyExc)
    (resubmit : Except PyExc BuyResponse) (h1 : walletSuccess r = false)
    (h2 : needsConfirmation r = true) :
    (buy_item true quote sessionid market_name market_id price fee app_id cv r
        (.error e) resubmit).2 = .error (confirmStepError e) ∧
    (confirmStepError e).errClass = ErrClass.apiExceptionClass ∧
    (e = .keyError ∨ e = .typeError →
      confirmStepError e = .apiException
        "Steam requested confirmation, but returned invalid data (confirmation_id).") ∧
    (∀ s, e = .otherExc s →
      confirmStepError e = .apiException
        ("An error occurred during the second confirmation step: " ++ s)) := by
  refine ⟨?_, ?_, ?_, ?_⟩
  · simp [buy_item, h1, h2]
  · cases e <;> rfl
  · rintro (rfl | rfl) <;> rfl
  · intro s hs
    subst hs
    rfl

/-- Witness for `c4_confirmStep_error_class` at a `TypeError` raised during
the confirmation step. -/
theorem c4_confirmStep_error_class_check :
    walletSuccess ⟨some 22, none, some ⟨some "cid"⟩, none⟩ = false ∧
    needsConfirmation ⟨some 22, none, some ⟨some "cid"⟩, none⟩ = true ∧
    (buy_item true (fun s => s) "sid" "item" "42" 100 10 "570" 1
        ⟨some 22, none, some ⟨some "cid"⟩, none⟩ (.error .typeError)
        (.ok ⟨none, none, none, none⟩)).2 =
      .error (confirmStepError .typeError) :=
  ⟨rfl, rfl,
    (c4_confirmStep_error_class (fun s => s) "sid" "item" "42" 100 10 "570" 1
      ⟨some 22, none, some ⟨some "cid"⟩, none⟩ .typeError
      (.ok ⟨none, none, none, none⟩) rfl rfl).1⟩

/-- **C4** counterexample.  The structurally-invalid cause (`TypeError`)
and the transport cause (another exception) both surface as
`ApiException`: the two outcomes share one exception class, so they are
not two distinct error kinds. -/
theorem c4_confirmStep_error_class_cex :
    (buy_item true (fun s => s) "sid" "item" "42" 100 10 "570" 1
        ⟨some 22, none, some ⟨some "cid"⟩, none⟩ (.error .typeError)
        (.ok ⟨none, none, none, none⟩)).2 =
      .error (.apiException
        "Steam requested confirmation, but returned invalid data (confirmation_id).") ∧
    (buy_item true (fun s => s) "sid" "item" "42" 100 10 "570" 1
        ⟨some 22, none, some ⟨some "cid"⟩, none⟩ (.error (.otherExc "timeout"))
        (.ok ⟨none, none, none, none⟩)).2 =
      .error (.apiException
        "An error occurred during the second confirmation step: timeout") ∧
    (confirmStepError .typeError).errClass =
      (confirmStepError (.otherExc "timeout")).errClass := by
  refine ⟨rfl, rfl, rfl⟩

/-! ## Claim C5 — terminal failure message -/

/-- **C5** (amended).  When neither the wallet-success condition nor the
confirmation condition holds, `buy_item` raises `ApiException` with the
message taken from the response's top-level `message` field; it falls back
to `wallet_info`'s `message` field exactly when the top-level one is falsy
— absent *or empty* — and `wallet_info` is present. -/
theorem c5_buyItem_failure_message (quote : String → String)
    (sessionid market_name market_id : String) (price fee : Int)
    (app_id : String) (cv : Nat) (r : BuyResponse)
    (confirmFetch : Except PyExc (List Nat)) (resubmit : Except PyExc BuyResponse)
    (h1 : walletSuccess r = false) (h2 : needsConfirmation r = false) :
    (buy_item true quote sessionid market_name market_id price fee app_id cv r
        confirmFetch resubmit).2 =
      .error (.apiException
        ("Failed to buy item. Steam message: " ++ renderOptStr (failMessage r))) ∧
    (truthyStr r.message = true → failMessage r = r.message) ∧
    (r.wallet_info = none → failMessage r = r.message) ∧
    (∀ w, r.wallet_info = some w → truthyStr r.message = false →
      failMessage r = w.message) := by
  refine ⟨?_, ?_, ?_, ?_⟩
  · simp [buy_item, h1, h2]
  · intro hm
    cases hw : r.wallet_info <;> simp [failMessage, hw, hm]
  · intro hw
    simp [failMessage, hw]
  · intro w hw hm
    simp [failMessage, hw, hm]

/-- Witness for `c5_buyItem_failure_message` at a response with no wallet
block, no confirmation and the message `"no funds"`. -/
theorem c5_buyItem_failure_message_check :
    walletSuccess ⟨some 0, none, none, some "no funds"⟩ = false ∧
    needsConfirmation ⟨some 0, none, none, some "no funds"⟩ = false ∧
    (buy_item true (fun s => s) "sid" "item" "42" 100 10 "570" 1
        ⟨some 0, none, none, some "no funds"⟩ (.ok []) (.ok ⟨none, none, none, none⟩)).2 =
      .error (.apiException
        ("Failed to buy item. Steam message: " ++
          renderOptStr (failMessage ⟨some 0, none, none, some "no funds"⟩))) :=
  ⟨rfl, rfl,
    (c5_buyItem_failure_message (fun s => s) "sid" "item" "42" 100 10 "570" 1
      ⟨some 0, none, none, some "no funds"⟩ (.ok []) (.ok ⟨none, none, none, none⟩)
      rfl rfl).1⟩

/-- **C5** counterexample.  With top-level `message` *present but empty*
and a wallet message `"Wallet says no"`, the code falls back to the wallet
message (Python truthiness), while "falling back when the top-level one is
absent" would keep the empty top-level message. -/
theorem c5_buyItem_failure_message_cex :
    failMessage ⟨some 0, some ⟨some 0, some "Wallet says no"⟩, none, some ""⟩ =
      some "Wallet says no" ∧
    failMessageSpec ⟨some 0, some ⟨some 0, some "Wallet says no"⟩, none, some ""⟩ =
      some "" ∧
    failMessage ⟨some 0, some ⟨some 0, some "Wallet says no"⟩, none, some ""⟩ ≠
      failMessageSpec ⟨some 0, some ⟨some 0, some "Wallet says no"⟩, none, some ""⟩ ∧
    (buy_item true (fun s => s) "sid" "item" "42" 100 10 "570" 1
        ⟨some 0, some ⟨some 0, some "Wallet says no"⟩, none, some ""⟩
        (.ok []) (.ok ⟨none, none, none, none⟩)).2 =
      .error (.apiException "Failed to buy item. Steam message: Wallet says no") := by
  refine ⟨rfl, rfl, by decide, ?_⟩
  simp [buy_item, walletSuccess, needsConfirmation, confirmationIdOf, truthyStr,
    failMessage, renderOptStr]

/-- **C7** counterexample.  The second collection's buy listing
`("b1", "v")` is absent from the merged collection: buy listings are not
unioned. -/
theorem c7_mergeListings_cex :
    mergeListings ⟨[("s1", "old")], [("x", "1")]⟩
        ⟨[("s1", "new"), ("s2", "b")], [("b1", "v")]⟩ =
      ⟨[("s1", "new"), ("s2", "b")], [("x", "1")]⟩ ∧
    lookupKey "b1" (mergeListings ⟨[("s1", "old")], [("x", "1")]⟩
        ⟨[("s1", "new"), ("s2", "b")], [("b1", "v")]⟩).buy_listings = none := by
  decide

/-! ## Claim C3 — success-indicator handling of buy-order create/cancel -/

/-- **C3** (amended).  `create_buy_order` returns the response iff the
success indicator equals the canonical value 1; any other indicator raises
`ApiException` — the *same* exception class as transport/HTTP failures,
not a distinct `OrderRejected` — embedding the raw value in its message.
`cancel_buy_order` behaves likewise. -/
theorem c3_order_success_handling (quote : String → String)
    (sessionid market_name price_single_item buy_order_id : String)
    (quantity : Nat) (app_id : String) (cv : Nat) (d : Dec)
    (hd : parseDec price_single_item = some d) (r rc : OrderResponse) :
    ((create_buy_order true quote sessionid market_name price_single_item
        quantity app_id cv r).map Prod.snd = some (.ok r) ↔ r.success = some 1) ∧
    (r.success ≠ some 1 →
      (create_buy_order true quote sessionid market_name price_single_item
          quantity app_id cv r).map Prod.snd =
        some (.error (.apiException
          ("There was a problem creating the order. Are you using the right currency? success: "
            ++ renderOptInt r.success)))) ∧
    ((cancel_buy_order true sessionid buy_order_id rc).2 = .ok rc ↔
      rc.success = some 1) ∧
    (rc.success ≠ some 1 →
      (cancel_buy_order true sessionid buy_order_id rc).2 =
        .error (.apiException
          ("There was a problem canceling the order. success: "
            ++ renderOptInt rc.success))) ∧
    errClassOf (cancel_sell_order true sessionid "listing" 500).2 =
      some ErrClass.apiExceptionClass ∧
    (r.success ≠ some 1 →
      (create_buy_order true quote sessionid market_name price_single_item
          quantity app_id cv r).map (fun p => errClassOf p.2) =
        some (errClassOf (cancel_sell_order true sessionid "listing" 500).2)) := by
  refine ⟨⟨fun h => ?_, fun h => ?_⟩, fun h => ?_, ⟨fun h => ?_, fun h => ?_⟩,
    fun h => ?_, rfl, fun h => ?_⟩
  · by_cases hs : r.success = some 1
    · exact hs
    · have hb : (r.success == some 1) = false := beq_eq_false_iff_ne.mpr hs
      simp [create_buy_order, hd, hb] at h
  · simp [create_buy_order, hd, h]
  · have hb : (r.success == some 1) = false := beq_eq_false_iff_ne.mpr h
    simp [create_buy_order, hd, hb]
  · by_cases hs : rc.success = some 1
    · exact hs
    · have hb : (rc.success == some 1) = false := beq_eq_false_iff_ne.mpr hs
      simp [cancel_buy_order, hb] at h
  · simp [cancel_buy_order, h]
  · have hb : (rc.success == some 1) = false := beq_eq_false_iff_ne.mpr h
    simp [cancel_buy_order, hb]
  · have hb : (r.success == some 1) = false := beq_eq_false_iff_ne.mpr h
    simp [create_buy_order, hd, hb, cancel_sell_order, errClassOf,
      MarketError.errClass]

/-- Witness for `c3_order_success_handling`: a rejected create (success 2)
and a rejected cancel (success 7). -/
theorem c3_order_success_handling_check :
    parseDec "0.33" = some ⟨33, 2⟩ ∧
    (create_buy_order true (fun s => s) "sid" "item" "0.33" 3 "570" 1
        ⟨some 2⟩).map Prod.snd =
      some (.error (.apiException
        "There was a problem creating the order. Are you using the right currency? success: 2")) ∧
    (cancel_buy_order true "sid" "oid" ⟨some 7⟩).2 =
      .error (.apiException "There was a problem canceling the order. success: 7") := by
  refine ⟨by decide, ?_, ?_⟩
  · exact (c3_order_success_handling (fun s => s) "sid" "item" "0.33" "oid" 3 "570" 1
      ⟨33, 2⟩ (by decide) ⟨some 2⟩ ⟨some 7⟩).2.1 (by decide)
  · exact (c3_order_success_handling (fun s => s) "sid" "item" "0.33" "oid" 3 "570" 1
      ⟨33, 2⟩ (by decide) ⟨some 2⟩ ⟨some 7⟩).2.2.2.1 (by decide)

/-- **C3** counterexample.  A rejected buy order raises an error of the
very same class (`ApiException`) as an HTTP transport failure: the code
has no `OrderRejected` class distinct from `ApiError`. -/
theorem c3_order_success_handling_cex :
    (create_buy_order true (fun s => s) "sid" "item" "0.33" 3 "570" 1
        ⟨some 2⟩).map (fun p => errClassOf p.2) =
      some (some ErrClass.apiExceptionClass) ∧
    errClassOf (cancel_sell_order true "sid" "listing" 500).2 =
      some ErrClass.apiExceptionClass ∧
    errClassOf (cancel_buy_order true "sid" "oid" ⟨some 7⟩).2 =
      some ErrClass.apiExceptionClass := by
  refine ⟨by decide, rfl, rfl⟩

/-! ## Claim C6 — sell-order confirmation delegation -/

/-- **C6**.  `create_sell_order` delegates to the confirmation service to
confirm specifically the sell listing tied to the submitted asset — a
targeted confirm, not accept-all — exactly when the response's
`needs_mobile_confirmation` is truthy, or its success is falsy and its
message contains the pending-confirmation substring, and then returns the
confirmation service's result; in every other case it returns the submit
response unchanged without contacting the confirmation service. -/
theorem c6_create_sell_order_confirm
    (assetid sessionid context_id app_id money steamid : String)
    (resp : SellResponse) (confirmSellResult : String → SellResponse) :
    (Event.confirmSellListing assetid ∈
        (create_sell_order true assetid sessionid context_id app_id money steamid
          resp confirmSellResult).1 ↔ sellNeedsConfirm resp = true) ∧
    (sellNeedsConfirm resp = true →
      create_sell_order true assetid sessionid context_id app_id money steamid
          resp confirmSellResult =
        ([Event.postSellItem (COMMUNITY_URL ++ "/market/sellitem/")
            ⟨assetid, sessionid, context_id, app_id, 1, money⟩
            (COMMUNITY_URL ++ "/profiles/" ++ steamid ++ "/inventory"),
          Event.confirmSellListing assetid],
         .ok (confirmSellResult assetid))) ∧
    (sellNeedsConfirm resp = false →
      create_sell_order true assetid sessionid context_id app_id money steamid
          resp confirmSellResult =
        ([Event.postSellItem (COMMUNITY_URL ++ "/market/sellitem/")
            ⟨assetid, sessionid, context_id, app_id, 1, money⟩
            (COMMUNITY_URL ++ "/profiles/" ++ steamid ++ "/inventory")],
         .ok resp)) := by
  refine ⟨⟨fun hmem => ?_, fun hc => ?_⟩, fun hc => ?_, fun hc => ?_⟩
  · by_cases hc : sellNeedsConfirm resp = true
    · exact hc
    · have hcf : sellNeedsConfirm resp = false := by
        revert hc
        cases sellNeedsConfirm resp <;> simp
      simp [create_sell_order, hcf] at hmem
  · simp [create_sell_order, hc]
  · simp [create_sell_order, hc]
  · simp [create_sell_order, hc]

/-- Witness for `c6_create_sell_order_confirm` at a response with a truthy
`needs_mobile_confirmation`: the targeted confirm of this asset's listing
is performed and its result returned. -/
theorem c6_create_sell_order_confirm_check :
    sellNeedsConfirm ⟨some false, some true, none⟩ = true ∧
    create_sell_order true "a1" "sid" "2" "570" "10.00" "7656" ⟨some false, some true, none⟩
        (fun a => ⟨some true, none, some a⟩) =
      ([Event.postSellItem "https://steamcommunity.com/market/sellitem/"
          ⟨"a1", "sid", "2", "570", 1, "10.00"⟩
          "https://steamcommunity.com/profiles/7656/inventory",
        Event.confirmSellListing "a1"],
       .ok ⟨some true, none, some "a1"⟩) :=
  ⟨rfl,
    (c6_create_sell_order_confirm "a1" "sid" "2" "570" "10.00" "7656"
      ⟨some false, some true, none⟩ (fun a => ⟨some true, none, some a⟩)).2.1 rfl⟩

/-! ## Claim C8 — login precondition -/

/-- **C8** (spec-modelled guard).  Every mutating operation —
`create_sell_order`, `create_buy_order`, `buy_item`, `cancel_sell_order`,
`cancel_buy_order` — invoked before the session context is established
fails with `NotLoggedIn` while emitting *no* event: no network I/O occurs,
and the error is the call's only outcome (nothing is retried). -/
theorem c8_login_required (quote : String → String)
    (assetid sessionid context_id app_id money steamid : String)
    (resp : SellResponse) (csr : String → SellResponse)
    (market_name price_single_item : String) (quantity : Nat) (cv : Nat)
    (r : OrderResponse) (market_id : String) (price fee : Int)
    (br : BuyResponse) (cf : Except PyExc (List Nat))
    (rs : Except PyExc BuyResponse) (listing_id : String) (status : Nat)
    (order_id : String) (rc : OrderResponse) :
    create_sell_order false assetid sessionid context_id app_id money steamid
        resp csr = ([], .error .notLoggedIn) ∧
    create_buy_order false quote sessionid market_name price_single_item
        quantity app_id cv r = some ([], .error .notLoggedIn) ∧
    buy_item false quote sessionid market_name market_id price fee app_id cv
        br cf rs = ([], .error .notLoggedIn) ∧
    cancel_sell_order false sessionid listing_id status =
      ([], .error .notLoggedIn) ∧
    cancel_buy_order false sessionid order_id rc = ([], .error .notLoggedIn) :=
  ⟨rfl, rfl, rfl, rfl, rfl⟩

/-! ## Claim C9 — decimal total price -/

/-- **C9** (amended).  `create_buy_order` computes `price_total` in
decimal — never binary floating-point — arithmetic: the field sent is the
string rendering of the exact decimal product of unit price and quantity
rounded half-even to the default context's 28 significant digits, and
whenever the exact product's coefficient has at most 28 significant
digits — every ordinary currency amount — no rounding happens at all: the
value sent is exactly `price · quantity`. -/
theorem c9_price_total_exact (quote : String → String)
    (sessionid market_name price_single_item : String) (quantity : Nat)
    (app_id : String) (cv : Nat) (d : Dec)
    (hd : parseDec price_single_item = some d) (r : OrderResponse) :
    (create_buy_order true quote sessionid market_name price_single_item
        quantity app_id cv r).map Prod.fst =
      some [Event.postCreateBuyOrder (COMMUNITY_URL ++ "/market/createbuyorder/")
        (buyOrderPayload sessionid cv app_id market_name d quantity)
        (listingsReferer quote app_id market_name)] ∧
    (buyOrderPayload sessionid cv app_id market_name d quantity).price_total =
      sciString (decMul28 d (Dec.ofNat quantity)) ∧
    (numDigits (d.coeff * (quantity : Int)).natAbs ≤ ctxPrec →
      (decMul28 d (Dec.ofNat quantity)).toRat = d.toRat * (quantity : ℚ)) := by
  refine ⟨?_, rfl, fun h => ?_⟩
  · rcases Bool.eq_false_or_eq_true (r.success == some 1) with hb | hb <;>
      simp [create_buy_order, hd, hb]
  · rw [decMul28_eq_exact d (Dec.ofNat quantity) h, Dec.toCDec_toRat,
      Dec.toRat_mul, Dec.toRat_ofNat]

/-- Witness for `c9_price_total_exact`: price `"0.33"` and quantity 3 give
the payload total `"0.99"` — never `"0.9899999..."` — whose value is
exactly `33/100 · 3` (the 2-digit product 99 is far below the 28-digit
precision). -/
theorem c9_price_total_exact_check :
    parseDec "0.33" = some ⟨33, 2⟩ ∧
    numDigits ((33 : Int) * ((3 : Nat) : Int)).natAbs ≤ ctxPrec ∧
    ((create_buy_order true (fun s => s) "sid" "item" "0.33" 3 "570" 1
        ⟨some 1⟩).map Prod.fst =
      some [Event.postCreateBuyOrder "https://steamcommunity.com/market/createbuyorder/"
        ⟨"sid", 1, "570", "item", "0.99", 3⟩
        "https://steamcommunity.com/market/listings/570/item"] ∧
     (buyOrderPayload "sid" 1 "570" "item" ⟨33, 2⟩ 3).price_total = "0.99" ∧
     (decMul28 ⟨33, 2⟩ (Dec.ofNat 3)).toRat = Dec.toRat ⟨33, 2⟩ * ((3 : Nat) : ℚ)) :=
  ⟨by decide, by decide,
    have h := c9_price_total_exact (fun s => s) "sid" "item" "0.33" 3 "570" 1
      ⟨33, 2⟩ (by decide) ⟨some 1⟩
    ⟨h.1, h.2.1, h.2.2 (by decide)⟩⟩

/-- **C9** counterexample.  At the exact decimal price
`"1.2345678901234567890123456789"` (29 significant digits) and quantity 3,
the exact product is `3.7037036703703703670370370367`, but the default
context rounds the multiplication to 28 significant digits, so the code
sends `"3.703703670370370367037037037"`: the total sent is *not* the exact
arbitrary-precision decimal product.  (There is still no binary
floating-point error — the rounding is decimal.) -/
theorem c9_price_total_exact_cex :
    parseDec "1.2345678901234567890123456789" =
      some ⟨12345678901234567890123456789, 28⟩ ∧
    (buyOrderPayload "sid" 1 "570" "item"
        ⟨12345678901234567890123456789, 28⟩ 3).price_total =
      "3.703703670370370367037037037" ∧
    sciString (Dec.mul ⟨12345678901234567890123456789, 28⟩ (Dec.ofNat 3)).toCDec =
      "3.7037036703703703670370370367" ∧
    (decMul28 ⟨12345678901234567890123456789, 28⟩ (Dec.ofNat 3)).toRat ≠
      (Dec.mul ⟨12345678901234567890123456789, 28⟩ (Dec.ofNat 3)).toRat := by
  refine ⟨by decide, by decide, by decide, ?_⟩
  have h1 : decMul28 ⟨12345678901234567890123456789, 28⟩ (Dec.ofNat 3) =
      ⟨3703703670370370367037037037, -27⟩ := by decide
  have h2 : Dec.mul ⟨12345678901234567890123456789, 28⟩ (Dec.ofNat 3) =
      ⟨37037036703703703670370370367, 28⟩ := by decide
  rw [h1, h2, CDec.toRat, Dec.toRat]
  intro hEq
  norm_num at hEq

end Steampy

